import Mathlib

/-!
# Ticker administration handlers (`internal/api/tickers.go`)

A shallow embedding of the ticker handlers.  A handler is a function from the
request context, the environment (the collaborators whose code is outside the
handlers: texts, the validator's email test, the bridge, store failures) and the
store to an `Outcome`: the response written, the store afterwards and the calls
made to the store and the bridge, in order.
-/

set_option autoImplicit false

namespace TickerApi

/-! ## Data model -/

/-- The remote-account descriptor (`twitter.User` of the bridge library); the
zero value `twitter.User{}` is `default`. -/
structure TwitterUser where
  ID : Int := 0
  Name : String := ""
  ScreenName : String := ""
  Description : String := ""
  ProfileImageURL : String := ""
  deriving DecidableEq, Inhabited, Repr

/-- The bridge connection embedded in a ticker (`ticker.Twitter`). -/
structure Twitter where
  Token : String := ""
  Secret : String := ""
  Active : Bool := false
  User : TwitterUser := default
  deriving DecidableEq, Inhabited, Repr

/-- The information block of a ticker (`ticker.Information`). -/
structure Information where
  Author : String := ""
  URL : String := ""
  Email : String := ""
  Twitter : String := ""
  Facebook : String := ""
  deriving DecidableEq, Inhabited, Repr

/-- The ticker entity, with the fields the handlers read and write. -/
structure Ticker where
  ID : Int := 0
  Domain : String := ""
  Title : String := ""
  Description : String := ""
  Active : Bool := false
  PrependTime : Bool := false
  Hashtags : List String := []
  Information : Information := default
  Twitter : Twitter := default
  deriving DecidableEq, Inhabited, Repr

/-- A message; `Ticker` is the foreign key to the owning ticker. -/
structure Message where
  ID : Int := 0
  Text : String := ""
  Ticker : Int := 0
  deriving DecidableEq, Inhabited, Repr

/-- A user; `Tickers` is the set of ticker IDs the user may manage. -/
structure User where
  ID : Int := 0
  Email : String := ""
  IsSuperAdmin : Bool := false
  Tickers : List Int := []
  deriving DecidableEq, Inhabited, Repr

/-- The store `DB`: the three buckets the handlers use and the increment
counter of the ticker bucket. -/
structure Store where
  tickers : List Ticker := []
  messages : List Message := []
  users : List User := []
  seq : Int := 0
  deriving DecidableEq, Inhabited, Repr

/-- A call a handler makes to the store or to the bridge. -/
inductive Call where
  | oneTicker (id : Int)
  | oneUser (id : Int)
  | allTickers
  | findTickers (ids : List Int)
  | saveTicker (t : Ticker)
  | deleteMessages (ticker : Int)
  | deleteTicker (id : Int)
  | findUsersByTicker (ticker : Int)
  | addUsersToTicker (ticker : Int) (users : List Int)
  | removeTickerFromUser (ticker : Int) (user : Int)
  | bridgeUser (t : Ticker)
  deriving DecidableEq, Repr

/-! ## Responses -/

/-- The payload under `"data"` of a success response. -/
inductive Payload where
  | null
  | ticker (t : Ticker)
  | tickers (ts : List Ticker)
  | users (us : List User)
  deriving DecidableEq, Repr

/-- The JSON envelope: success with a payload, or an error with code and message. -/
inductive Body where
  | success (data : Payload)
  | error (code : Nat) (message : String)
  deriving DecidableEq, Repr

/-- What `c.JSON(status, body)` writes. -/
structure Response where
  status : Nat
  body : Body
  deriving DecidableEq, Repr

/-- The result of running a handler. -/
structure Outcome where
  response : Response
  store : Store
  calls : List Call
  deriving DecidableEq, Repr

def StatusOK : Nat := 200
def StatusBadRequest : Nat := 400
def StatusForbidden : Nat := 403
def StatusNotFound : Nat := 404
def StatusInternalServerError : Nat := 500

/-- Modelled from the spec: the constant is declared outside the handlers' file;
the spec gives `1000` as the generic error code. -/
def ErrorCodeDefault : Nat := 1000

/-- Modelled from the spec: the constant is declared outside the handlers' file;
the spec and `TestGetTickerHandler` give `1001` as the not-found code. -/
def ErrorCodeNotFound : Nat := 1001

/-- Modelled from the spec: the constant is declared outside the handlers' file;
the spec and the handler tests give `1003` as the insufficient-permissions code. -/
def ErrorCodeInsufficientPermissions : Nat := 1003

/-- Modelled from the spec: the constant is declared outside the handlers' file;
the handler tests give its text. -/
def ErrorInsufficientPermissions : String := "insufficient permissions"

/-- The text of `storm.ErrNotFound`, as the handler tests show it. -/
def ErrNotFound : String := "not found"

def NewJSONErrorResponse (code : Nat) (message : String) : Body := Body.error code message

def NewJSONSuccessResponse (data : Payload) : Body := Body.success data

/-- The response every handler writes when the caller lacks permission. -/
def forbidden : Response :=
  ⟨StatusForbidden, NewJSONErrorResponse ErrorCodeInsufficientPermissions ErrorInsufficientPermissions⟩

/-! ## Requests and environment -/

/-- The body struct declared in `updateTicker`, as decoded from the request
(an absent string is `""`, an absent flag `false`, absent hashtags `[]`). -/
structure TickerBody where
  Domain : String := ""
  Title : String := ""
  Description : String := ""
  Active : Bool := false
  PrependTime : Bool := false
  Hashtags : List String := []
  Information : Information := default
  deriving DecidableEq, Inhabited, Repr

/-- The body struct declared in `PutTickerUsersHandler`; `none` is an absent
`users` key. -/
structure UsersBody where
  Users : Option (List Int) := none
  deriving DecidableEq, Inhabited, Repr

/-- The body struct declared in `PutTickerTwitterHandler`. -/
structure TwitterBody where
  Active : Bool := false
  Disconnect : Bool := false
  Token : String := ""
  Secret : String := ""
  deriving DecidableEq, Inhabited, Repr

/-- The request context `c`: the caller `Me(c)` resolves (`none` when it
fails), the outcome of `strconv.Atoi` on the two path parameters, and the
outcome of decoding the request body into each handler's body struct. -/
structure Context where
  me : Option User := none
  tickerID : Except String Int := .error "invalid syntax"
  userID : Except String Int := .error "invalid syntax"
  tickerBody : Except String TickerBody := .error "EOF"
  usersBody : Except String UsersBody := .error "EOF"
  twitterBody : Except String TwitterBody := .error "EOF"

/-- The collaborators of the handlers whose code is outside the handlers' file:
the text of `ErrorUserNotFound`, the validator's texts and email test, the text
of the binding error for the fields that fail their `required` tag, the bridge
lookup `bridge.Twitter.User`, and the failures the store may answer with
(`none`: the operation is carried out). -/
structure Env where
  ErrorUserNotFound : String
  requiredE : String
  minLengthE : Nat → String
  emailE : String
  bindingE : List String → String
  isEmail : String → Bool
  bridgeUser : Ticker → Except String TwitterUser
  saveError : Option String := none
  deleteMessagesError : Option String := none
  deleteTickerError : Option String := none
  saveUserError : Option String := none

/-- The call `Me(c)`: the resolved caller. -/
def Me (c : Context) : Option User := c.me

/-- Modelled from the spec: `IsAdmin` is declared outside the handlers' file;
the spec's `RequireAdmin(caller)` allows superadmins only, and a caller that
does not resolve is no admin. -/
def IsAdmin (c : Context) : Bool :=
  match Me c with
  | some me => me.IsSuperAdmin
  | none => false

/-! ## `contains` and the per-ticker guard -/

def contains : List Int → Int → Bool
  | [], _ => false
  | a :: s, e => if a == e then true else contains s e

/-- The guard `!me.IsSuperAdmin` / `!contains(me.Tickers, tickerID)` that the
handlers answer with 403. -/
def denied (me : User) (tickerID : Int) : Bool :=
  !me.IsSuperAdmin && !contains me.Tickers tickerID

/-! ## The store -/

/-- The call `DB.One("ID", id, &ticker)`: the ticker with that ID, `none` for
`storm.ErrNotFound`. -/
def Store.One (db : Store) (id : Int) : Option Ticker :=
  db.tickers.find? (fun t => t.ID == id)

/-- The call `DB.One("ID", id, &user)`. -/
def Store.OneUser (db : Store) (id : Int) : Option User :=
  db.users.find? (fun u => u.ID == id)

/-- Writing a ticker under its ID: the record with that ID is replaced, a new
ID is added at the end. -/
def put (ts : List Ticker) (t : Ticker) : List Ticker :=
  if ts.any (fun x => x.ID == t.ID) then ts.map (fun x => if x.ID == t.ID then t else x)
  else ts ++ [t]

/-- The call `DB.Save(&ticker)`: a failing store changes nothing; a ticker with the zero
ID gets the next value of the bucket's counter; the ticker is written under its
ID.  The ticker returned is the one behind the pointer afterwards. -/
def Store.Save (env : Env) (db : Store) (t : Ticker) : Store × Ticker × Option String :=
  match env.saveError with
  | some e => (db, t, some e)
  | none =>
    if t.ID == 0 then
      let t1 := { t with ID := db.seq + 1 }
      ({ db with tickers := put db.tickers t1, seq := db.seq + 1 }, t1, none)
    else
      ({ db with tickers := put db.tickers t }, t, none)

/-- The call `DB.Select(q.Eq("Ticker", id)).Delete(new(Message))`. -/
def Store.DeleteMessages (env : Env) (db : Store) (id : Int) : Store × Option String :=
  match env.deleteMessagesError with
  | some e => (db, some e)
  | none => ({ db with messages := db.messages.filter (fun m => !(m.Ticker == id)) }, none)

/-- The call `DB.Select(q.Eq("ID", id)).Delete(new(Ticker))`. -/
def Store.DeleteTicker (env : Env) (db : Store) (id : Int) : Store × Option String :=
  match env.deleteTickerError with
  | some e => (db, some e)
  | none => ({ db with tickers := db.tickers.filter (fun t => !(t.ID == id)) }, none)

/-- The call `DB.All(&tickers, storm.Reverse())`. -/
def Store.AllReverse (db : Store) : List Ticker := db.tickers.reverse

/-- The call `DB.Select(q.In("ID", allowed)).Reverse().Find(&tickers)`: `none` is
`storm.ErrNotFound`, the answer when nothing matches. -/
def Store.FindInReverse (db : Store) (allowed : List Int) : Option (List Ticker) :=
  match (db.tickers.filter (fun t => contains allowed t.ID)).reverse with
  | [] => none
  | ts => some ts

/-! ## Field validation -/

/-- Modelled from the spec: `util.Validator` is declared outside the handlers'
file.  A validator holds the string under test, whether a rule has failed and
the text `E` of the failure. -/
structure Validator where
  s : String
  E : String := ""
  ok : Bool := true
  deriving DecidableEq, Repr

/-- Modelled from the spec: `util.Validator(s)` starts a validation of `s`. -/
def Validator.new (s : String) : Validator := { s := s }

/-- Modelled from the spec: a required field fails when it is empty. -/
def Validator.Required (env : Env) (v : Validator) : Validator :=
  if v.ok && v.s == "" then { v with ok := false, E := env.requiredE } else v

/-- Modelled from the spec: a field that is present (non-empty) fails when it
has fewer than `n` characters. -/
def Validator.MinLength (env : Env) (n : Nat) (v : Validator) : Validator :=
  if v.ok && !(v.s == "") && decide (v.s.length < n) then
    { v with ok := false, E := env.minLengthE n }
  else v

/-- Modelled from the spec: a field that is present (non-empty) fails when it
is not in email format. -/
def Validator.IsEmail (env : Env) (v : Validator) : Validator :=
  if v.ok && !(v.s == "") && !env.isEmail v.s then { v with ok := false, E := env.emailE } else v

/-- Modelled from the spec: `Check()` tells whether every rule held. -/
def Validator.Check (v : Validator) : Bool := v.ok

/-- The fields of `updateTicker`'s body that carry `binding:"required"` and are
empty, in declaration order. -/
def requiredFailures (b : TickerBody) : List String :=
  (if b.Domain == "" then ["Domain"] else []) ++
  (if b.Title == "" then ["Title"] else []) ++
  (if b.Description == "" then ["Description"] else [])

/-- The call `c.Bind(&body)` in `updateTicker`: the decoding error if the body does not
decode, the binding error if a field tagged `binding:"required"` is empty. -/
def bindTickerBody (env : Env) (c : Context) : Except String TickerBody :=
  match c.tickerBody with
  | .error e => .error e
  | .ok b => if requiredFailures b == [] then .ok b else .error (env.bindingE (requiredFailures b))

/-- The call `c.Bind(&body)` in `PutTickerUsersHandler`: `users` is tagged
`binding:"required"`. -/
def bindUsersBody (env : Env) (c : Context) : Except String (List Int) :=
  match c.usersBody with
  | .error e => .error e
  | .ok b =>
    match b.Users with
    | none => .error (env.bindingE ["Users"])
    | some us => .ok us

/-- The call `c.Bind(&body)` in `PutTickerTwitterHandler`: no field is required. -/
def bindTwitterBody (c : Context) : Except String TwitterBody := c.twitterBody

/-- The call `updateTicker(t, c)`: the ticker behind `t` afterwards and the error
returned (`none` for `nil`).  The `err != nil == true` test after the eight
field tests is unreachable with an error (`err` is `nil` there) and has no
counterpart here. -/
def updateTicker (env : Env) (t : Ticker) (c : Context) : Ticker × Option String :=
  match bindTickerBody env c with
  | .error err => (t, some err)
  | .ok body =>
    let domain := Validator.new body.Domain
    let domain := (domain.Required env).MinLength env 5
    let domainResult := domain.Check
    let title := Validator.new body.Title
    let title := (title.Required env).MinLength env 5
    let titleResult := title.Check
    let description := Validator.new body.Description
    let description := (description.Required env).MinLength env 5
    let descriptionResult := description.Check
    let author := (Validator.new body.Information.Author).MinLength env 3
    let authorResult := author.Check
    let uRL := (Validator.new body.Information.URL).MinLength env 5
    let uRLResult := uRL.Check
    let email := (Validator.new body.Information.Email).IsEmail env
    let emailResult := email.Check
    let twitter := (Validator.new body.Information.Twitter).MinLength env 5
    let twitterResult := twitter.Check
    let facebook := (Validator.new body.Information.Facebook).MinLength env 5
    let facebookResult := facebook.Check
    if !domainResult then (t, some ("Domain: " ++ domain.E))
    else if !titleResult then (t, some ("Title: " ++ title.E))
    else if !descriptionResult then (t, some ("Description: " ++ description.E))
    else if !authorResult then (t, some ("Author: " ++ author.E))
    else if !uRLResult then (t, some ("Url: " ++ uRL.E))
    else if !emailResult then (t, some ("Email: " ++ email.E))
    else if !twitterResult then (t, some ("Twitter: " ++ twitter.E))
    else if !facebookResult then (t, some ("Facebook: " ++ facebook.E))
    else
      ({ t with
          Domain := body.Domain
          Title := body.Title
          Description := body.Description
          Active := body.Active
          PrependTime := body.PrependTime
          Hashtags := body.Hashtags
          Information :=
            { t.Information with
              Author := body.Information.Author
              URL := body.Information.URL
              Email := body.Information.Email
              Twitter := body.Information.Twitter
              Facebook := body.Information.Facebook } }, none)

/-! ## Collaborators declared outside the handlers' file -/

/-- Modelled from the spec: `NewTicker` is declared outside the handlers' file;
a new ticker has no ID yet and the default (Disconnected) bridge state. -/
def NewTicker : Ticker := {}

/-- Modelled from the spec: `Ticker.Reset` is declared outside the handlers'
file; a reset clears the active flag and preserves identity, domain, title,
description and bridge configuration. -/
def Ticker.Reset (t : Ticker) : Ticker := { t with Active := false }

/-- Modelled from the spec: `Twitter.Connected` is declared outside the
handlers' file; the connection counts as connected when it has token and
secret and is active. -/
def Twitter.Connected (tw : Twitter) : Bool :=
  !(tw.Token == "") && !(tw.Secret == "") && tw.Active

/-- Modelled from the spec: `NewTickerResponse`, `NewTickersResponse` and
`NewUsersResponse` are declared outside the handlers' file; the payload is
taken to be the entity handed to them. -/
def NewTickerResponse (t : Ticker) : Payload := Payload.ticker t

def NewTickersResponse (ts : List Ticker) : Payload := Payload.tickers ts

def NewUsersResponse (us : List User) : Payload := Payload.users us

/-- Modelled from the spec: `FindUsersByTicker` is declared outside the
handlers' file; `ListMembers` returns every user whose authorized-ticker set
contains the ticker's ID. -/
def FindUsersByTicker (db : Store) (ticker : Ticker) : List User :=
  db.users.filter (fun u => contains u.Tickers ticker.ID)

/-- Persisting a user: a failing store changes nothing, otherwise the record
with the user's ID is replaced. -/
def Store.SaveUser (env : Env) (db : Store) (u : User) : Store × Option String :=
  match env.saveUserError with
  | some e => (db, some e)
  | none => ({ db with users := db.users.map (fun x => if x.ID == u.ID then u else x) }, none)

/-- Modelled from the spec: `AddUsersToTicker` is declared outside the
handlers' file; `AddMembers` adds the ticker's ID to each resolved user's set
unless present and persists the user, goes on past an ID that does not resolve
but then reports failure, and stops at the first failing write. -/
def AddUsersToTicker (env : Env) (ticker : Ticker) : Store → List Int → Store × Option String
  | db, [] => (db, none)
  | db, id :: ids =>
    match db.OneUser id with
    | none =>
      match AddUsersToTicker env ticker db ids with
      | (db1, none) => (db1, some ErrNotFound)
      | (db1, some e) => (db1, some e)
    | some u =>
      let u1 := if contains u.Tickers ticker.ID then u else { u with Tickers := u.Tickers ++ [ticker.ID] }
      match db.SaveUser env u1 with
      | (db1, some e) => (db1, some e)
      | (db1, none) => AddUsersToTicker env ticker db1 ids

/-- Modelled from the spec: `RemoveTickerFromUser` is declared outside the
handlers' file; `RemoveMember` removes the ticker's ID from the user's set and
persists the user. -/
def RemoveTickerFromUser (env : Env) (db : Store) (ticker : Ticker) (user : User) :
    Store × Option String :=
  db.SaveUser env { user with Tickers := user.Tickers.filter (fun i => !(i == ticker.ID)) }

/-! ## Handlers -/

/-- The answer to a caller that `Me(c)` does not resolve. -/
def userNotFound (env : Env) : Response :=
  ⟨StatusNotFound, NewJSONErrorResponse ErrorCodeDefault env.ErrorUserNotFound⟩

/-- The answer to a path parameter `strconv.Atoi` rejects, and to a body that
does not bind. -/
def badRequest (err : String) : Response :=
  ⟨StatusBadRequest, NewJSONErrorResponse ErrorCodeDefault err⟩

/-- GetTickersHandler returns all Ticker with paging. -/
def GetTickersHandler (env : Env) (c : Context) (db : Store) : Outcome :=
  match Me c with
  | none => ⟨userNotFound env, db, []⟩
  | some me =>
    if me.IsSuperAdmin then
      ⟨⟨StatusOK, NewJSONSuccessResponse (NewTickersResponse db.AllReverse)⟩, db, [Call.allTickers]⟩
    else
      let allowed := me.Tickers
      match db.FindInReverse allowed with
      | none =>
        ⟨⟨StatusOK, NewJSONSuccessResponse (NewTickersResponse [])⟩, db, [Call.findTickers allowed]⟩
      | some tickers =>
        ⟨⟨StatusOK, NewJSONSuccessResponse (NewTickersResponse tickers)⟩, db,
          [Call.findTickers allowed]⟩

/-- GetTickerHandler returns a Ticker for the given id. -/
def GetTickerHandler (env : Env) (c : Context) (db : Store) : Outcome :=
  match Me c with
  | none => ⟨userNotFound env, db, []⟩
  | some me =>
    match c.tickerID with
    | .error err => ⟨badRequest err, db, []⟩
    | .ok tickerID =>
      if denied me tickerID then ⟨forbidden, db, []⟩
      else
        match db.One tickerID with
        | none =>
          ⟨⟨StatusNotFound, NewJSONErrorResponse ErrorCodeNotFound ErrNotFound⟩, db,
            [Call.oneTicker tickerID]⟩
        | some ticker =>
          ⟨⟨StatusOK, NewJSONSuccessResponse (NewTickerResponse ticker)⟩, db,
            [Call.oneTicker tickerID]⟩

/-- GetTickerUsersHandler returns Users for the given ticker. -/
def GetTickerUsersHandler (env : Env) (c : Context) (db : Store) : Outcome :=
  match Me c with
  | none => ⟨userNotFound env, db, []⟩
  | some me =>
    match c.tickerID with
    | .error err => ⟨badRequest err, db, []⟩
    | .ok tickerID =>
      match db.One tickerID with
      | none =>
        ⟨⟨StatusNotFound, NewJSONErrorResponse ErrorCodeNotFound ErrNotFound⟩, db,
          [Call.oneTicker tickerID]⟩
      | some ticker =>
        if denied me tickerID then ⟨forbidden, db, [Call.oneTicker tickerID]⟩
        else
          let users := FindUsersByTicker db ticker
          ⟨⟨StatusOK, NewJSONSuccessResponse (NewUsersResponse users)⟩, db,
            [Call.oneTicker tickerID, Call.findUsersByTicker ticker.ID]⟩

/-- PostTickerHandler creates and returns a new Ticker. -/
def PostTickerHandler (env : Env) (c : Context) (db : Store) : Outcome :=
  if !IsAdmin c then ⟨forbidden, db, []⟩
  else
    let ticker := NewTicker
    match updateTicker env ticker c with
    | (_, some err) => ⟨badRequest err, db, []⟩
    | (ticker, none) =>
      match db.Save env ticker with
      | (db1, _, some err) => ⟨badRequest err, db1, [Call.saveTicker ticker]⟩
      | (db1, ticker1, none) =>
        ⟨⟨StatusOK, NewJSONSuccessResponse (NewTickerResponse ticker1)⟩, db1,
          [Call.saveTicker ticker]⟩

/-- PutTickerHandler updates and returns a existing Ticker. -/
def PutTickerHandler (env : Env) (c : Context) (db : Store) : Outcome :=
  match Me c with
  | none => ⟨userNotFound env, db, []⟩
  | some me =>
    match c.tickerID with
    | .error err => ⟨badRequest err, db, []⟩
    | .ok tickerID =>
      if denied me tickerID then ⟨forbidden, db, []⟩
      else
        match db.One tickerID with
        | none =>
          ⟨⟨StatusNotFound, NewJSONErrorResponse ErrorCodeDefault ErrNotFound⟩, db,
            [Call.oneTicker tickerID]⟩
        | some ticker =>
          match updateTicker env ticker c with
          | (_, some err) => ⟨badRequest err, db, [Call.oneTicker tickerID]⟩
          | (ticker, none) =>
            match db.Save env ticker with
            | (db1, _, some err) =>
              ⟨⟨StatusNotFound, NewJSONErrorResponse ErrorCodeDefault err⟩, db1,
                [Call.oneTicker tickerID, Call.saveTicker ticker]⟩
            | (db1, ticker1, none) =>
              ⟨⟨StatusOK, NewJSONSuccessResponse (NewTickerResponse ticker1)⟩, db1,
                [Call.oneTicker tickerID, Call.saveTicker ticker]⟩

/-- PutTickerUsersHandler changes the allowed users for a ticker. -/
def PutTickerUsersHandler (env : Env) (c : Context) (db : Store) : Outcome :=
  match Me c with
  | none => ⟨userNotFound env, db, []⟩
  | some me =>
    match c.tickerID with
    | .error err => ⟨badRequest err, db, []⟩
    | .ok tickerID =>
      match db.One tickerID with
      | none =>
        ⟨⟨StatusNotFound, NewJSONErrorResponse ErrorCodeNotFound ErrNotFound⟩, db,
          [Call.oneTicker tickerID]⟩
      | some ticker =>
        if denied me tickerID then ⟨forbidden, db, [Call.oneTicker tickerID]⟩
        else
          match bindUsersBody env c with
          | .error err => ⟨badRequest err, db, [Call.oneTicker tickerID]⟩
          | .ok users =>
            match AddUsersToTicker env ticker db users with
            | (db1, some err) =>
              ⟨⟨StatusInternalServerError, NewJSONErrorResponse ErrorCodeDefault err⟩, db1,
                [Call.oneTicker tickerID, Call.addUsersToTicker ticker.ID users]⟩
            | (db1, none) =>
              let found := FindUsersByTicker db1 ticker
              ⟨⟨StatusOK, NewJSONSuccessResponse (NewUsersResponse found)⟩, db1,
                [Call.oneTicker tickerID, Call.addUsersToTicker ticker.ID users,
                  Call.findUsersByTicker ticker.ID]⟩

/-- The bridge request applied to the ticker's connection
(`PutTickerTwitterHandler`, the `if body.Disconnect` statement). -/
def applyTwitterBody (ticker : Ticker) (body : TwitterBody) : Ticker :=
  if body.Disconnect then
    { ticker with
      Twitter := { ticker.Twitter with Token := "", Secret := "", Active := false, User := default } }
  else
    let ticker :=
      if body.Token != "" then { ticker with Twitter := { ticker.Twitter with Token := body.Token } }
      else ticker
    let ticker :=
      if body.Secret != "" then { ticker with Twitter := { ticker.Twitter with Secret := body.Secret } }
      else ticker
    { ticker with Twitter := { ticker.Twitter with Active := body.Active } }

/-- The descriptor lookup of `PutTickerTwitterHandler` (the
`if ticker.Twitter.Connected()` statement): the ticker afterwards and the
bridge calls made. -/
def fetchTwitterUser (env : Env) (ticker : Ticker) : Ticker × List Call :=
  if ticker.Twitter.Connected then
    match env.bridgeUser ticker with
    | .ok user => ({ ticker with Twitter := { ticker.Twitter with User := user } }, [Call.bridgeUser ticker])
    | .error _ => (ticker, [Call.bridgeUser ticker])
  else (ticker, [])

/-- PutTickerTwitterHandler changes the bridge connection of a ticker. -/
def PutTickerTwitterHandler (env : Env) (c : Context) (db : Store) : Outcome :=
  match Me c with
  | none => ⟨userNotFound env, db, []⟩
  | some me =>
    match c.tickerID with
    | .error err => ⟨badRequest err, db, []⟩
    | .ok tickerID =>
      if denied me tickerID then ⟨forbidden, db, []⟩
      else
        match db.One tickerID with
        | none =>
          ⟨⟨StatusNotFound, NewJSONErrorResponse ErrorCodeDefault ErrNotFound⟩, db,
            [Call.oneTicker tickerID]⟩
        | some ticker =>
          match bindTwitterBody c with
          | .error err => ⟨badRequest err, db, [Call.oneTicker tickerID]⟩
          | .ok body =>
            let ticker := applyTwitterBody ticker body
            match fetchTwitterUser env ticker with
            | (ticker, bridgeCalls) =>
              match db.Save env ticker with
              | (db1, _, some err) =>
                ⟨⟨StatusNotFound, NewJSONErrorResponse ErrorCodeDefault err⟩, db1,
                  [Call.oneTicker tickerID] ++ bridgeCalls ++ [Call.saveTicker ticker]⟩
              | (db1, ticker1, none) =>
                ⟨⟨StatusOK, NewJSONSuccessResponse (NewTickerResponse ticker1)⟩, db1,
                  [Call.oneTicker tickerID] ++ bridgeCalls ++ [Call.saveTicker ticker]⟩

/-- DeleteTickerHandler deletes a existing Ticker.  The two `Delete` calls'
results are dropped, as in the source. -/
def DeleteTickerHandler (env : Env) (c : Context) (db : Store) : Outcome :=
  if !IsAdmin c then ⟨forbidden, db, []⟩
  else
    match c.tickerID with
    | .error err => ⟨badRequest err, db, []⟩
    | .ok tickerID =>
      match db.One tickerID with
      | none =>
        ⟨⟨StatusNotFound, NewJSONErrorResponse ErrorCodeNotFound ErrNotFound⟩, db,
          [Call.oneTicker tickerID]⟩
      | some _ =>
        let db1 := (db.DeleteMessages env tickerID).1
        let db2 := (db1.DeleteTicker env tickerID).1
        ⟨⟨StatusOK, NewJSONSuccessResponse Payload.null⟩, db2,
          [Call.oneTicker tickerID, Call.deleteMessages tickerID, Call.deleteTicker tickerID]⟩

/-- DeleteTickerUserHandler removes ticker credentials for a user. -/
def DeleteTickerUserHandler (env : Env) (c : Context) (db : Store) : Outcome :=
  match Me c with
  | none => ⟨userNotFound env, db, []⟩
  | some me =>
    match c.tickerID with
    | .error err => ⟨badRequest err, db, []⟩
    | .ok tickerID =>
      match db.One tickerID with
      | none =>
        ⟨⟨StatusNotFound, NewJSONErrorResponse ErrorCodeNotFound ErrNotFound⟩, db,
          [Call.oneTicker tickerID]⟩
      | some ticker =>
        if denied me tickerID then ⟨forbidden, db, [Call.oneTicker tickerID]⟩
        else
          match c.userID with
          | .error err => ⟨badRequest err, db, [Call.oneTicker tickerID]⟩
          | .ok userID =>
            match db.OneUser userID with
            | none =>
              ⟨⟨StatusNotFound, NewJSONErrorResponse ErrorCodeNotFound ErrNotFound⟩, db,
                [Call.oneTicker tickerID, Call.oneUser userID]⟩
            | some user =>
              match RemoveTickerFromUser env db ticker user with
              | (db1, some err) =>
                ⟨⟨StatusInternalServerError, NewJSONErrorResponse ErrorCodeDefault err⟩, db1,
                  [Call.oneTicker tickerID, Call.oneUser userID,
                    Call.removeTickerFromUser ticker.ID user.ID]⟩
              | (db1, none) =>
                let users := FindUsersByTicker db1 ticker
                ⟨⟨StatusOK, NewJSONSuccessResponse (NewUsersResponse users)⟩, db1,
                  [Call.oneTicker tickerID, Call.oneUser userID,
                    Call.removeTickerFromUser ticker.ID user.ID, Call.findUsersByTicker ticker.ID]⟩

/-- ResetTickerHandler deletes the messages of a ticker and resets it.  The
`Delete` call's result is dropped, as in the source. -/
def ResetTickerHandler (env : Env) (c : Context) (db : Store) : Outcome :=
  if !IsAdmin c then ⟨forbidden, db, []⟩
  else
    match c.tickerID with
    | .error err => ⟨badRequest err, db, []⟩
    | .ok tickerID =>
      match db.One tickerID with
      | none =>
        ⟨⟨StatusNotFound, NewJSONErrorResponse ErrorCodeNotFound ErrNotFound⟩, db,
          [Call.oneTicker tickerID]⟩
      | some ticker =>
        let db1 := (db.DeleteMessages env tickerID).1
        let ticker := ticker.Reset
        match db1.Save env ticker with
        | (db2, _, some err) =>
          ⟨⟨StatusNotFound, NewJSONErrorResponse ErrorCodeDefault err⟩, db2,
            [Call.oneTicker tickerID, Call.deleteMessages tickerID, Call.saveTicker ticker]⟩
        | (db2, ticker1, none) =>
          ⟨⟨StatusOK, NewJSONSuccessResponse (NewTickerResponse ticker1)⟩, db2,
            [Call.oneTicker tickerID, Call.deleteMessages tickerID, Call.saveTicker ticker]⟩

/-- An environment for the examples: the validator's email test asks for an
`@`, the binding error lists the failing keys in
order, the bridge cannot be reached and the store carries out every
operation. -/
def exampleEnv : Env where
  ErrorUserNotFound := "user not found"
  requiredE := "is required"
  minLengthE := fun _ => "is too short"
  emailE := "is not an email address"
  bindingE := fun fs =>
    "\n".intercalate
      (fs.map fun f => "Key: " ++ f ++ " Error:Field validation for " ++ f ++ " failed on the required tag")
  isEmail := fun s => s.data.contains '@'
  bridgeUser := fun _ => .error "bridge unavailable"

/-- The superadmin of the handler tests' setup. -/
def exampleAdmin : User := { ID := 1, Email := "admin@systemli.org", IsSuperAdmin := true }

/-- The plain user of the handler tests' setup, with no authorized ticker. -/
def exampleUser : User := { ID := 2, Email := "louis@systemli.org" }

/-- A ticker as the handler tests save it: ID 1, active, connected bridge. -/
def exampleTicker : Ticker :=
  { ID := 1, Domain := "demoticker.org", Active := true, PrependTime := true, Hashtags := ["test"],
    Twitter := { Token := "token", Secret := "secret", Active := true } }

/-- A store with the example ticker, one message of it and the two users. -/
def exampleStore : Store :=
  { tickers := [exampleTicker], messages := [{ ID := 1, Text := "Text", Ticker := 1 }],
    users := [exampleAdmin, exampleUser], seq := 1 }

/-- The request body of `TestPutTickerHandler`. -/
def exampleBody : TickerBody :=
  { Title := "Ticker", Domain := "prozessticker.org", Description := "Beschreibung",
    Active := false, PrependTime := false, Hashtags := [],
    Information := { URL := "https://www.systemli.org", Email := "admin@systemli.org" } }

/-! ## The field rules in the spec's words -/

/-- The rule of a required field of at least `n` characters, in the spec's
words: the reason it fails for, `none` when it holds. -/
def specRequiredMin (env : Env) (n : Nat) (s : String) : Option String :=
  if s = "" then some env.requiredE
  else if s.length < n then some (env.minLengthE n)
  else none

/-- The rule of an optional field of at least `n` characters when present, in
the spec's words. -/
def specOptionalMin (env : Env) (n : Nat) (s : String) : Option String :=
  if s ≠ "" ∧ s.length < n then some (env.minLengthE n) else none

/-- The rule of an optional field in email format when present, in the spec's
words. -/
def specOptionalEmail (env : Env) (s : String) : Option String :=
  if s ≠ "" ∧ env.isEmail s = false then some env.emailE else none

/-- The eight fields in the spec's fixed order, each with the name the error
carries and the outcome of its rule. -/
def specFieldRules (env : Env) (b : TickerBody) : List (String × Option String) :=
  [("Domain", specRequiredMin env 5 b.Domain),
   ("Title", specRequiredMin env 5 b.Title),
   ("Description", specRequiredMin env 5 b.Description),
   ("Author", specOptionalMin env 3 b.Information.Author),
   ("Url", specOptionalMin env 5 b.Information.URL),
   ("Email", specOptionalEmail env b.Information.Email),
   ("Twitter", specOptionalMin env 5 b.Information.Twitter),
   ("Facebook", specOptionalMin env 5 b.Information.Facebook)]

/-- The first field in the fixed order whose rule fails, with the reason. -/
def specFirstFailure (env : Env) (b : TickerBody) : Option (String × String) :=
  (specFieldRules env b).findSome? (fun p => p.2.map (fun r => (p.1, r)))

/-- The ticker after a successful update, in the spec's words: the mutable
fields are the body's, ID and bridge connection are the ticker's. -/
def specUpdated (t : Ticker) (b : TickerBody) : Ticker :=
  { ID := t.ID, Domain := b.Domain, Title := b.Title, Description := b.Description,
    Active := b.Active, PrependTime := b.PrependTime, Hashtags := b.Hashtags,
    Information := b.Information, Twitter := t.Twitter }

/-! ## Lemmas on `contains` and the guard -/

theorem contains_iff_mem (s : List Int) (e : Int) : contains s e = true ↔ e ∈ s := by
  induction s with
  | nil => simp [contains]
  | cons a s ih =>
    by_cases h : a = e
    · simp [contains, h]
    · have h2 : ¬ e = a := fun h3 => h h3.symm
      simp [contains, h, h2, ih]

theorem denied_false_iff (me : User) (tickerID : Int) :
    denied me tickerID = false ↔ (me.IsSuperAdmin = true ∨ tickerID ∈ me.Tickers) := by
  unfold denied
  cases h : me.IsSuperAdmin <;> cases h2 : contains me.Tickers tickerID <;>
    simp [← contains_iff_mem, h2]

theorem getTicker_forbidden_iff (env : Env) (c : Context) (db : Store) (me : User)
    (tickerID : Int) (hme : c.me = some me) (hid : c.tickerID = .ok tickerID) :
    (GetTickerHandler env c db).response = forbidden ↔ denied me tickerID = true := by
  unfold GetTickerHandler
  simp only [Me, hme, hid]
  cases hd : denied me tickerID
  · simp
    cases db.One tickerID <;> simp [forbidden, StatusNotFound, StatusForbidden, StatusOK]
  · simp

theorem putTicker_forbidden_iff (env : Env) (c : Context) (db : Store) (me : User)
    (tickerID : Int) (hme : c.me = some me) (hid : c.tickerID = .ok tickerID) :
    (PutTickerHandler env c db).response = forbidden ↔ denied me tickerID = true := by
  unfold PutTickerHandler
  simp only [Me, hme, hid]
  cases hd : denied me tickerID
  · simp
    repeat' split
    all_goals
      simp [forbidden, StatusNotFound, StatusForbidden, StatusOK, badRequest, StatusBadRequest]
  · simp

theorem putTickerTwitter_forbidden_iff (env : Env) (c : Context) (db : Store) (me : User)
    (tickerID : Int) (hme : c.me = some me) (hid : c.tickerID = .ok tickerID) :
    (PutTickerTwitterHandler env c db).response = forbidden ↔ denied me tickerID = true := by
  unfold PutTickerTwitterHandler
  simp only [Me, hme, hid]
  cases hd : denied me tickerID
  · simp
    repeat' split
    all_goals
      simp [forbidden, StatusNotFound, StatusForbidden, StatusOK, badRequest, StatusBadRequest]
  · simp

theorem getTickerUsers_forbidden_iff (env : Env) (c : Context) (db : Store) (me : User)
    (tickerID : Int) (ticker : Ticker) (hme : c.me = some me) (hid : c.tickerID = .ok tickerID)
    (hex : db.One tickerID = some ticker) :
    (GetTickerUsersHandler env c db).response = forbidden ↔ denied me tickerID = true := by
  unfold GetTickerUsersHandler
  simp only [Me, hme, hid, hex]
  cases hd : denied me tickerID <;> simp [forbidden, StatusForbidden, StatusOK]

theorem putTickerUsers_forbidden_iff (env : Env) (c : Context) (db : Store) (me : User)
    (tickerID : Int) (ticker : Ticker) (hme : c.me = some me) (hid : c.tickerID = .ok tickerID)
    (hex : db.One tickerID = some ticker) :
    (PutTickerUsersHandler env c db).response = forbidden ↔ denied me tickerID = true := by
  unfold PutTickerUsersHandler
  simp only [Me, hme, hid, hex]
  cases hd : denied me tickerID
  · simp
    repeat' split
    all_goals
      simp [forbidden, StatusInternalServerError, StatusForbidden, StatusOK, badRequest,
        StatusBadRequest]
  · simp

theorem deleteTickerUser_forbidden_iff (env : Env) (c : Context) (db : Store) (me : User)
    (tickerID : Int) (ticker : Ticker) (hme : c.me = some me) (hid : c.tickerID = .ok tickerID)
    (hex : db.One tickerID = some ticker) :
    (DeleteTickerUserHandler env c db).response = forbidden ↔ denied me tickerID = true := by
  unfold DeleteTickerUserHandler
  simp only [Me, hme, hid, hex]
  cases hd : denied me tickerID
  · simp
    repeat' split
    all_goals
      simp [forbidden, StatusInternalServerError, StatusForbidden, StatusOK, badRequest,
        StatusBadRequest, StatusNotFound]
  · simp

/-! ## The per-ticker access check -/

/-- C1: the guard lets a caller through iff the caller is a superadmin or the
ticker ID is an element of the caller's `Tickers`; a non-superadmin is let
through iff `contains` is true; `contains s e` is true iff `e` occurs in `s`,
and false on the empty list.  Each of the six handlers that apply the guard
answers 403 with code 1003 exactly when the guard denies (GetTicker, PutTicker
and PutTickerTwitter in every store; GetTickerUsers, PutTickerUsers and
DeleteTickerUser, which look the ticker up first, when the ticker exists). -/
theorem access_check_iff (me : User) (tickerID : Int) :
    (denied me tickerID = false ↔ (me.IsSuperAdmin = true ∨ tickerID ∈ me.Tickers)) ∧
    (me.IsSuperAdmin = false →
      (denied me tickerID = false ↔ contains me.Tickers tickerID = true)) ∧
    (∀ (s : List Int) (e : Int), contains s e = true ↔ e ∈ s) ∧
    (∀ e : Int, contains [] e = false) ∧
    (∀ (env : Env) (c : Context) (db : Store), c.me = some me → c.tickerID = .ok tickerID →
      ((GetTickerHandler env c db).response = forbidden ↔ denied me tickerID = true) ∧
      ((PutTickerHandler env c db).response = forbidden ↔ denied me tickerID = true) ∧
      ((PutTickerTwitterHandler env c db).response = forbidden ↔ denied me tickerID = true)) ∧
    (∀ (env : Env) (c : Context) (db : Store) (ticker : Ticker), c.me = some me →
      c.tickerID = .ok tickerID → db.One tickerID = some ticker →
      ((GetTickerUsersHandler env c db).response = forbidden ↔ denied me tickerID = true) ∧
      ((PutTickerUsersHandler env c db).response = forbidden ↔ denied me tickerID = true) ∧
      ((DeleteTickerUserHandler env c db).response = forbidden ↔ denied me tickerID = true)) := by
  refine ⟨denied_false_iff me tickerID, ?_, contains_iff_mem, fun _ => rfl, ?_, ?_⟩
  · intro h
    simp [denied, h]
  · intro env c db hme hid
    exact ⟨getTicker_forbidden_iff env c db me tickerID hme hid,
      putTicker_forbidden_iff env c db me tickerID hme hid,
      putTickerTwitter_forbidden_iff env c db me tickerID hme hid⟩
  · intro env c db ticker hme hid hex
    exact ⟨getTickerUsers_forbidden_iff env c db me tickerID ticker hme hid hex,
      putTickerUsers_forbidden_iff env c db me tickerID ticker hme hid hex,
      deleteTickerUser_forbidden_iff env c db me tickerID ticker hme hid hex⟩

/-- Witness for C1: a user with `Tickers = [1]` is let through for ticker 1 and
denied for ticker 2. -/
theorem access_check_iff_witness :
    denied { Tickers := [1] } 1 = false ∧ denied { Tickers := [1] } 2 = true ∧
    (GetTickerHandler exampleEnv { me := some { Tickers := [1] }, tickerID := .ok 2 } {}).response
      = forbidden :=
  ⟨(access_check_iff { Tickers := [1] } 1).1.mpr (Or.inr (by decide)), by decide,
    ((access_check_iff { Tickers := [1] } 2).2.2.2.2.1 exampleEnv
      { me := some { Tickers := [1] }, tickerID := .ok 2 } {} rfl rfl).1.mpr (by decide)⟩

/-! ## Lemmas on the store -/

theorem mem_put (ts : List Ticker) (t : Ticker) : t ∈ put ts t := by
  unfold put
  split
  · rename_i h
    simp only [List.any_eq_true] at h
    obtain ⟨x, hx, hxt⟩ := h
    simp only [List.mem_map]
    exact ⟨x, hx, by simp [hxt]⟩
  · simp

theorem find_put (ts : List Ticker) (t : Ticker) :
    (put ts t).find? (fun x => x.ID == t.ID) = some t := by
  unfold put
  split
  · rename_i h
    induction ts with
    | nil => simp at h
    | cons a ts ih =>
      by_cases ha : a.ID = t.ID
      · simp [ha]
      · have : ts.any (fun x => x.ID == t.ID) = true := by
          simpa [ha] using h
        simp [ha, List.find?_cons]
        simpa using ih this
  · rename_i h
    simp only [List.find?_append]
    have : ts.find? (fun x => x.ID == t.ID) = none := by
      simp only [List.find?_eq_none]
      intro x hx hxt
      exact h (by simp only [List.any_eq_true]; exact ⟨x, hx, hxt⟩)
    simp [this]

/-- A `Save` the store carries out: the ticker written is the one handed in,
under its ID or, for the zero ID, under the next counter value; it is in the
store afterwards; messages and users are untouched. -/
theorem save_ok (env : Env) (db : Store) (t : Ticker) (h : env.saveError = none) :
    ∃ db1 t1, db.Save env t = (db1, t1, none) ∧ t1 ∈ db1.tickers ∧ db1.One t1.ID = some t1 ∧
      t1 = { t with ID := t1.ID } ∧ (t.ID ≠ 0 → t1 = t) ∧ db1.messages = db.messages ∧
      db1.users = db.users := by
  unfold Store.Save
  rw [h]
  by_cases h0 : t.ID = 0
  · refine ⟨{ db with tickers := put db.tickers { t with ID := db.seq + 1 }, seq := db.seq + 1 },
      { t with ID := db.seq + 1 }, ?_, mem_put _ _, find_put _ _, rfl, fun h => absurd h0 h,
      rfl, rfl⟩
    simp [h0]
  · refine ⟨{ db with tickers := put db.tickers t }, t, ?_, mem_put _ _, find_put _ _, rfl,
      fun _ => rfl, rfl, rfl⟩
    simp [h0]

theorem one_id (db : Store) (id : Int) (t : Ticker) (h : db.One id = some t) : t.ID = id := by
  have := List.find?_some h
  simpa using this

/-! ## The bridge connection -/

theorem applyTwitterBody_disconnect (ticker : Ticker) (body : TwitterBody)
    (h : body.Disconnect = true) :
    (applyTwitterBody ticker body).Twitter
      = { Token := "", Secret := "", Active := false, User := default } := by
  simp [applyTwitterBody, h]

theorem fetchTwitterUser_not_connected (env : Env) (ticker : Ticker)
    (h : ticker.Twitter.Connected = false) : fetchTwitterUser env ticker = (ticker, []) := by
  simp [fetchTwitterUser, h]

/-- C2: for an existing ticker, whatever its bridge state, and a bridge request
with `disconnect=true`, whatever else it carries, PutTickerTwitter (caller
resolved and let through, store saving) answers 200 with a ticker that is in the
store afterwards and whose bridge connection has empty token, empty secret,
`active=false` and the empty descriptor; the only calls are the lookup and the
save, so the descriptor is not fetched again. -/
theorem disconnect_clears_bridge (env : Env) (c : Context) (db : Store) (me : User)
    (tickerID : Int) (ticker : Ticker) (body : TwitterBody)
    (hme : c.me = some me) (hid : c.tickerID = .ok tickerID)
    (hallow : denied me tickerID = false) (hex : db.One tickerID = some ticker)
    (hbody : c.twitterBody = .ok body) (hdis : body.Disconnect = true)
    (hsave : env.saveError = none) :
    ∃ saved : Ticker,
      (PutTickerTwitterHandler env c db).response
        = ⟨StatusOK, NewJSONSuccessResponse (NewTickerResponse saved)⟩ ∧
      saved ∈ (PutTickerTwitterHandler env c db).store.tickers ∧
      (PutTickerTwitterHandler env c db).store.One saved.ID = some saved ∧
      saved.Twitter = { Token := "", Secret := "", Active := false, User := default } ∧
      (PutTickerTwitterHandler env c db).calls
        = [Call.oneTicker tickerID, Call.saveTicker (applyTwitterBody ticker body)] := by
  have hT := applyTwitterBody_disconnect ticker body hdis
  have hC : (applyTwitterBody ticker body).Twitter.Connected = false := by
    rw [hT]; rfl
  obtain ⟨db1, t1, hs, hmem, hone, heq, -, -, -⟩ :=
    save_ok env db (applyTwitterBody ticker body) hsave
  refine ⟨t1, ?_⟩
  unfold PutTickerTwitterHandler
  simp only [Me, hme, hid, hallow, hex, bindTwitterBody, hbody,
    fetchTwitterUser_not_connected env _ hC, hs]
  refine ⟨by simp, hmem, hone, ?_, by simp⟩
  rw [heq]
  exact hT

/-- Witness for C2: the superadmin disconnects the connected example ticker
with a request that also carries a token and `active=true`. -/
theorem disconnect_clears_bridge_witness :
    ∃ saved : Ticker,
      (PutTickerTwitterHandler exampleEnv
          { me := some exampleAdmin, tickerID := .ok 1,
            twitterBody := .ok { Disconnect := true, Token := "new", Active := true } }
          exampleStore).response
        = ⟨StatusOK, NewJSONSuccessResponse (NewTickerResponse saved)⟩ ∧
      saved.Twitter = { Token := "", Secret := "", Active := false, User := default } := by
  obtain ⟨saved, h1, -, -, h4, -⟩ :=
    disconnect_clears_bridge exampleEnv
      { me := some exampleAdmin, tickerID := .ok 1,
        twitterBody := .ok { Disconnect := true, Token := "new", Active := true } }
      exampleStore exampleAdmin 1 exampleTicker { Disconnect := true, Token := "new", Active := true }
      rfl rfl (by decide) (by decide) rfl rfl rfl
  exact ⟨saved, h1, h4⟩

/-- The descriptor lookup changes nothing but the cached descriptor. -/
theorem fetchTwitterUser_keeps (env : Env) (ticker : Ticker) :
    ∃ u : TwitterUser,
      (fetchTwitterUser env ticker).1 = { ticker with Twitter := { ticker.Twitter with User := u } } := by
  unfold fetchTwitterUser
  split
  · split
    · rename_i user _
      exact ⟨user, rfl⟩
    · exact ⟨ticker.Twitter.User, rfl⟩
  · exact ⟨ticker.Twitter.User, rfl⟩

theorem applyTwitterBody_connect (ticker : Ticker) (body : TwitterBody)
    (h : body.Disconnect = false) :
    (applyTwitterBody ticker body).Twitter.Token
        = (if body.Token = "" then ticker.Twitter.Token else body.Token) ∧
      (applyTwitterBody ticker body).Twitter.Secret
        = (if body.Secret = "" then ticker.Twitter.Secret else body.Secret) ∧
      (applyTwitterBody ticker body).Twitter.Active = body.Active := by
  by_cases ht : body.Token = "" <;> by_cases hs : body.Secret = "" <;>
    simp [applyTwitterBody, h, ht, hs]

/-- C3: for an existing ticker and a bridge request with `disconnect=false`,
PutTickerTwitter (caller resolved and let through, store saving) answers 200
with a ticker that is in the store afterwards, whose token is the request's
token if that is non-empty and the old token otherwise, whose secret is the
request's secret if that is non-empty and the old secret otherwise, and whose
active flag is the request's. -/
theorem connect_applies_request (env : Env) (c : Context) (db : Store) (me : User)
    (tickerID : Int) (ticker : Ticker) (body : TwitterBody)
    (hme : c.me = some me) (hid : c.tickerID = .ok tickerID)
    (hallow : denied me tickerID = false) (hex : db.One tickerID = some ticker)
    (hbody : c.twitterBody = .ok body) (hdis : body.Disconnect = false)
    (hsave : env.saveError = none) :
    ∃ saved : Ticker,
      (PutTickerTwitterHandler env c db).response
        = ⟨StatusOK, NewJSONSuccessResponse (NewTickerResponse saved)⟩ ∧
      saved ∈ (PutTickerTwitterHandler env c db).store.tickers ∧
      (PutTickerTwitterHandler env c db).store.One saved.ID = some saved ∧
      saved.Twitter.Token = (if body.Token = "" then ticker.Twitter.Token else body.Token) ∧
      saved.Twitter.Secret = (if body.Secret = "" then ticker.Twitter.Secret else body.Secret) ∧
      saved.Twitter.Active = body.Active := by
  obtain ⟨hT, hS, hA⟩ := applyTwitterBody_connect ticker body hdis
  obtain ⟨u, hu⟩ := fetchTwitterUser_keeps env (applyTwitterBody ticker body)
  rcases hf : fetchTwitterUser env (applyTwitterBody ticker body) with ⟨t2, bridgeCalls⟩
  rw [hf] at hu
  simp only at hu
  obtain ⟨db1, t1, hs, hmem, hone, heq, -, -, -⟩ := save_ok env db t2 hsave
  refine ⟨t1, ?_⟩
  unfold PutTickerTwitterHandler
  simp only [Me, hme, hid, hallow, hex, bindTwitterBody, hbody, hf, hs]
  refine ⟨by simp, hmem, hone, ?_, ?_, ?_⟩
  · rw [heq, hu]; exact hT
  · rw [heq, hu]; exact hS
  · rw [heq, hu]; exact hA

/-- Witness for C3: the superadmin sends a new token, no secret and
`active=false` for the example ticker. -/
theorem connect_applies_request_witness :
    ∃ saved : Ticker,
      (PutTickerTwitterHandler exampleEnv
          { me := some exampleAdmin, tickerID := .ok 1,
            twitterBody := .ok { Token := "new", Active := false } }
          exampleStore).response
        = ⟨StatusOK, NewJSONSuccessResponse (NewTickerResponse saved)⟩ ∧
      saved.Twitter.Token = "new" ∧ saved.Twitter.Secret = "secret" ∧
      saved.Twitter.Active = false := by
  obtain ⟨saved, h1, -, -, h4, h5, h6⟩ :=
    connect_applies_request exampleEnv
      { me := some exampleAdmin, tickerID := .ok 1,
        twitterBody := .ok { Token := "new", Active := false } }
      exampleStore exampleAdmin 1 exampleTicker { Token := "new", Active := false }
      rfl rfl (by decide) (by decide) rfl rfl rfl
  exact ⟨saved, h1, h4, h5, h6⟩

/-! ## Field validation and update -/

theorem requiredMin_eq (env : Env) (n : Nat) (s : String) :
    ((Validator.new s).Required env).MinLength env n
      = match specRequiredMin env n s with
        | some r => { s := s, E := r, ok := false }
        | none => { s := s } := by
  by_cases h1 : s = ""
  · simp [Validator.new, Validator.Required, Validator.MinLength, specRequiredMin, h1]
  · by_cases h2 : s.length < n
    · simp [Validator.new, Validator.Required, Validator.MinLength, specRequiredMin, h1, h2]
    · simp [Validator.new, Validator.Required, Validator.MinLength, specRequiredMin, h1, h2]

theorem optionalMin_eq (env : Env) (n : Nat) (s : String) :
    (Validator.new s).MinLength env n
      = match specOptionalMin env n s with
        | some r => { s := s, E := r, ok := false }
        | none => { s := s } := by
  by_cases h1 : s = ""
  · simp [Validator.new, Validator.MinLength, specOptionalMin, h1]
  · by_cases h2 : s.length < n
    · simp [Validator.new, Validator.MinLength, specOptionalMin, h1, h2]
    · simp [Validator.new, Validator.MinLength, specOptionalMin, h1, h2]

theorem optionalEmail_eq (env : Env) (s : String) :
    (Validator.new s).IsEmail env
      = match specOptionalEmail env s with
        | some r => { s := s, E := r, ok := false }
        | none => { s := s } := by
  by_cases h1 : s = ""
  · simp [Validator.new, Validator.IsEmail, specOptionalEmail, h1]
  · cases h2 : env.isEmail s
    · simp [Validator.new, Validator.IsEmail, specOptionalEmail, h1, h2]
    · simp [Validator.new, Validator.IsEmail, specOptionalEmail, h1, h2]

theorem updateTicker_eq (env : Env) (t : Ticker) (c : Context) (b : TickerBody)
    (hb : bindTickerBody env c = .ok b) :
    updateTicker env t c
      = match specFirstFailure env b with
        | some (name, reason) => (t, some (name ++ ": " ++ reason))
        | none => (specUpdated t b, none) := by
  unfold updateTicker
  simp only [hb, requiredMin_eq, optionalMin_eq, optionalEmail_eq, specFirstFailure,
    specFieldRules, List.findSome?_cons, List.findSome?_nil]
  cases h1 : specRequiredMin env 5 b.Domain
  swap
  · simp [Validator.Check]
  cases h2 : specRequiredMin env 5 b.Title
  swap
  · simp [Validator.Check]
  cases h3 : specRequiredMin env 5 b.Description
  swap
  · simp [Validator.Check]
  cases h4 : specOptionalMin env 3 b.Information.Author
  swap
  · simp [Validator.Check]
  cases h5 : specOptionalMin env 5 b.Information.URL
  swap
  · simp [Validator.Check]
  cases h6 : specOptionalEmail env b.Information.Email
  swap
  · simp [Validator.Check]
  cases h7 : specOptionalMin env 5 b.Information.Twitter
  swap
  · simp [Validator.Check]
  cases h8 : specOptionalMin env 5 b.Information.Facebook
  swap
  · simp [Validator.Check]
  simp [Validator.Check, specUpdated]

theorem bind_of_required (env : Env) (c : Context) (b : TickerBody)
    (hdec : c.tickerBody = .ok b) (hreq : requiredFailures b = []) :
    bindTickerBody env c = .ok b := by
  simp [bindTickerBody, hdec, hreq]

theorem required_of_valid (env : Env) (b : TickerBody) (h : specFirstFailure env b = none) :
    requiredFailures b = [] := by
  unfold specFirstFailure specFieldRules at h
  simp only [List.findSome?_cons] at h
  by_cases h1 : b.Domain = ""
  · simp [specRequiredMin, h1] at h
  · by_cases h2 : b.Title = ""
    · simp [specRequiredMin, h2] at h
      split at h <;> simp at h
    · by_cases h3 : b.Description = ""
      · simp [specRequiredMin, h3] at h
        split at h
        · simp at h
        · split at h <;> simp at h
      · simp [requiredFailures, h1, h2, h3]

/-- C4 (amended): for a body that decodes and whose domain, title and
description are non-empty (so that it binds), if a field fails its rule then
`updateTicker` leaves the ticker as it is and returns the error made of the
name and the reason of the first failing field in the order domain, title,
description, author, url, email, twitter, facebook; a body that decodes but has
an empty required field fails with the binding error for those fields. -/
theorem updateTicker_first_failure (env : Env) (t : Ticker) (c : Context) (b : TickerBody)
    (hdec : c.tickerBody = .ok b) :
    (requiredFailures b = [] → ∀ name reason : String,
      specFirstFailure env b = some (name, reason) →
      updateTicker env t c = (t, some (name ++ ": " ++ reason))) ∧
    (requiredFailures b ≠ [] →
      updateTicker env t c = (t, some (env.bindingE (requiredFailures b)))) := by
  constructor
  · intro hreq name reason hfail
    rw [updateTicker_eq env t c b (bind_of_required env c b hdec hreq), hfail]
  · intro hreq
    simp [updateTicker, bindTickerBody, hdec, hreq]

/-- Witness for C4 (amended): with title and description given, the domain
`ab` is the field reported. -/
theorem updateTicker_first_failure_witness :
    updateTicker exampleEnv exampleTicker
        { tickerBody := .ok { Domain := "ab", Title := "Ticker", Description := "Beschreibung" } }
      = (exampleTicker, some "Domain: is too short") :=
  (updateTicker_first_failure exampleEnv exampleTicker
      { tickerBody := .ok { Domain := "ab", Title := "Ticker", Description := "Beschreibung" } }
      { Domain := "ab", Title := "Ticker", Description := "Beschreibung" } rfl).1
    (by decide) "Domain" "is too short" (by decide)

/-- C4 as stated fails: for the body with domain `ab` and every other field
absent the first field failing its rule is the domain, yet the error returned
is the binding error for title and description and not the domain's. -/
theorem updateTicker_short_domain_counterexample :
    specFirstFailure exampleEnv { Domain := "ab" } = some ("Domain", "is too short") ∧
    (updateTicker exampleEnv exampleTicker { tickerBody := .ok { Domain := "ab" } }).2
      = some (exampleEnv.bindingE ["Title", "Description"]) ∧
    (updateTicker exampleEnv exampleTicker { tickerBody := .ok { Domain := "ab" } }).2
      ≠ some ("Domain" ++ ": " ++ "is too short") := by
  decide

/-- C5: for an existing ticker `t` and a valid body `b` (no field fails its
rule), PutTicker (caller resolved and let through, store saving) answers 200
with exactly `t` with domain, title, description, active, prepend-time,
hashtags and the information fields replaced by those of `b`, and that ticker
is the one stored under the ID afterwards; its ID and its bridge connection are
those of `t`. -/
theorem update_replaces_mutable_fields (env : Env) (c : Context) (db : Store) (me : User)
    (tickerID : Int) (t : Ticker) (b : TickerBody)
    (hme : c.me = some me) (hid : c.tickerID = .ok tickerID)
    (hallow : denied me tickerID = false) (hex : db.One tickerID = some t)
    (hid0 : tickerID ≠ 0) (hdec : c.tickerBody = .ok b)
    (hvalid : specFirstFailure env b = none) (hsave : env.saveError = none) :
    (PutTickerHandler env c db).response
      = ⟨StatusOK, NewJSONSuccessResponse (NewTickerResponse (specUpdated t b))⟩ ∧
    (PutTickerHandler env c db).store.One tickerID = some (specUpdated t b) ∧
    (specUpdated t b).ID = tickerID ∧ (specUpdated t b).Twitter = t.Twitter := by
  have hID : t.ID = tickerID := one_id db tickerID t hex
  have hu := updateTicker_eq env t c b
    (bind_of_required env c b hdec (required_of_valid env b hvalid))
  rw [hvalid] at hu
  simp only at hu
  have hne : (specUpdated t b).ID ≠ 0 := by
    show t.ID ≠ 0
    rw [hID]; exact hid0
  obtain ⟨db1, t1, hs, -, hone, -, heq, -, -⟩ := save_ok env db (specUpdated t b) hsave
  have h1 := heq hne
  subst h1
  unfold PutTickerHandler
  simp only [Me, hme, hid, hallow, hex, hu, hs]
  refine ⟨by simp, ?_, hID, rfl⟩
  have : (specUpdated t b).ID = tickerID := hID
  rw [← this]
  exact hone

/-- Witness for C5: the scenario of `TestPutTickerHandler`: ticker 1, active
with hashtag `test`, updated with `active=false` and no hashtags. -/
theorem update_replaces_mutable_fields_witness :
    (PutTickerHandler exampleEnv
        { me := some exampleAdmin, tickerID := .ok 1, tickerBody := .ok exampleBody }
        exampleStore).response
      = ⟨StatusOK, NewJSONSuccessResponse (NewTickerResponse
          { ID := 1, Domain := "prozessticker.org", Title := "Ticker",
            Description := "Beschreibung", Active := false, PrependTime := false, Hashtags := [],
            Information := { URL := "https://www.systemli.org", Email := "admin@systemli.org" },
            Twitter := { Token := "token", Secret := "secret", Active := true } })⟩ :=
  (update_replaces_mutable_fields exampleEnv
    { me := some exampleAdmin, tickerID := .ok 1, tickerBody := .ok exampleBody }
    exampleStore exampleAdmin 1 exampleTicker exampleBody rfl rfl (by decide) (by decide)
    (by decide) rfl (by decide) rfl).1

/-! ## Admin-only operations -/

theorem isAdmin_false (c : Context) (me : User) (hme : c.me = some me)
    (hns : me.IsSuperAdmin = false) : IsAdmin c = false := by
  simp [IsAdmin, Me, hme, hns]

theorem isAdmin_true (c : Context) (me : User) (hme : c.me = some me)
    (hs : me.IsSuperAdmin = true) : IsAdmin c = true := by
  simp [IsAdmin, Me, hme, hs]

/-- C6: for a caller that is not a superadmin, PostTicker, DeleteTicker and
ResetTicker each answer 403 with code 1003 and `insufficient permissions`,
make no call to the store and leave it as it was, whatever the store holds and
whatever the caller's `Tickers`. -/
theorem admin_only_forbidden (env : Env) (c : Context) (db : Store) (me : User)
    (hme : c.me = some me) (hns : me.IsSuperAdmin = false) :
    PostTickerHandler env c db = ⟨forbidden, db, []⟩ ∧
    DeleteTickerHandler env c db = ⟨forbidden, db, []⟩ ∧
    ResetTickerHandler env c db = ⟨forbidden, db, []⟩ ∧
    forbidden = ⟨403, Body.error 1003 "insufficient permissions"⟩ := by
  have h := isAdmin_false c me hme hns
  refine ⟨?_, ?_, ?_, rfl⟩
  · simp [PostTickerHandler, h]
  · simp [DeleteTickerHandler, h]
  · simp [ResetTickerHandler, h]

/-- Witness for C6: a plain user whose `Tickers` holds ticker 1 asks to delete
the existing ticker 1. -/
theorem admin_only_forbidden_witness :
    DeleteTickerHandler exampleEnv
        { me := some { exampleUser with Tickers := [1] }, tickerID := .ok 1 } exampleStore
      = ⟨forbidden, exampleStore, []⟩ :=
  (admin_only_forbidden exampleEnv
    { me := some { exampleUser with Tickers := [1] }, tickerID := .ok 1 } exampleStore
    { exampleUser with Tickers := [1] } rfl rfl).2.1

/-! ## Delete and reset -/

theorem one_filter_ne (ts : List Ticker) (id : Int) :
    (ts.filter (fun t => !(t.ID == id))).find? (fun t => t.ID == id) = none := by
  simp [List.find?_eq_none, List.mem_filter]

theorem deleteTicker_absent (env : Env) (c : Context) (db : Store) (id : Int)
    (hadmin : IsAdmin c = true) (hid : c.tickerID = .ok id) (hno : db.One id = none) :
    DeleteTickerHandler env c db
      = ⟨⟨StatusNotFound, NewJSONErrorResponse ErrorCodeNotFound ErrNotFound⟩, db,
          [Call.oneTicker id]⟩ := by
  simp [DeleteTickerHandler, hadmin, hid, hno]

theorem deleteTicker_present (env : Env) (c : Context) (db : Store) (id : Int) (t : Ticker)
    (hadmin : IsAdmin c = true) (hid : c.tickerID = .ok id) (hex : db.One id = some t) :
    DeleteTickerHandler env c db
      = ⟨⟨StatusOK, NewJSONSuccessResponse Payload.null⟩,
          ((db.DeleteMessages env id).1.DeleteTicker env id).1,
          [Call.oneTicker id, Call.deleteMessages id, Call.deleteTicker id]⟩ := by
  simp [DeleteTickerHandler, hadmin, hid, hex]

theorem deleteMessages_tickers (env : Env) (db : Store) (id : Int) :
    (db.DeleteMessages env id).1.tickers = db.tickers := by
  unfold Store.DeleteMessages
  split <;> rfl

/-- C7: two consecutive deletions of one ID by a superadmin: if the first
answers 200 and the store carried out its deletion of the ticker, the second
answers 404 with code 1001; a deletion of an ID that is not in the store
answers 404 with code 1001, looks the ticker up and changes nothing. -/
theorem delete_twice_not_found (env1 env2 : Env) (c : Context) (db : Store) (id : Int)
    (hadmin : IsAdmin c = true) (hid : c.tickerID = .ok id) :
    (env1.deleteTickerError = none →
      (DeleteTickerHandler env1 c db).response.status = StatusOK →
      (DeleteTickerHandler env2 c (DeleteTickerHandler env1 c db).store).response
        = ⟨404, Body.error 1001 "not found"⟩) ∧
    (db.One id = none →
      DeleteTickerHandler env1 c db
        = ⟨⟨404, Body.error 1001 "not found"⟩, db, [Call.oneTicker id]⟩) := by
  constructor
  · intro hdel hok
    cases hex : db.One id with
    | none =>
      rw [deleteTicker_absent env1 c db id hadmin hid hex] at hok
      simp [StatusOK, StatusNotFound] at hok
    | some t =>
      rw [deleteTicker_present env1 c db id t hadmin hid hex]
      have hno : (((db.DeleteMessages env1 id).1.DeleteTicker env1 id).1).One id = none := by
        simp only [Store.DeleteTicker, hdel, Store.One, deleteMessages_tickers]
        exact one_filter_ne _ _
      rw [deleteTicker_absent env2 c _ id hadmin hid hno]
      rfl
  · intro hno
    rw [deleteTicker_absent env1 c db id hadmin hid hno]
    rfl

/-- Witness for C7: the superadmin deletes the example ticker twice. -/
theorem delete_twice_not_found_witness :
    (DeleteTickerHandler exampleEnv { me := some exampleAdmin, tickerID := .ok 1 }
        (DeleteTickerHandler exampleEnv { me := some exampleAdmin, tickerID := .ok 1 }
          exampleStore).store).response
      = ⟨404, Body.error 1001 "not found"⟩ :=
  (delete_twice_not_found exampleEnv exampleEnv { me := some exampleAdmin, tickerID := .ok 1 }
    exampleStore 1 rfl rfl).1 rfl rfl

/-- C8: for a store in which ticker `id` exists, DeleteTicker by a superadmin,
with the store carrying out both deletions, answers 200; it looks the ticker
up, then deletes the messages and only then the ticker; afterwards no message
has ticker-foreign-key `id` and no ticker has ID `id`, and the tickers and
messages left are exactly the other tickers and the messages of other tickers,
unchanged and in their order; users and counter are untouched. -/
theorem delete_cascade (env : Env) (c : Context) (db : Store) (id : Int) (t : Ticker)
    (hadmin : IsAdmin c = true) (hid : c.tickerID = .ok id) (hex : db.One id = some t)
    (hmsg : env.deleteMessagesError = none) (htick : env.deleteTickerError = none) :
    (DeleteTickerHandler env c db).response = ⟨StatusOK, NewJSONSuccessResponse Payload.null⟩ ∧
    (DeleteTickerHandler env c db).calls
      = [Call.oneTicker id, Call.deleteMessages id, Call.deleteTicker id] ∧
    (∀ m ∈ (DeleteTickerHandler env c db).store.messages, m.Ticker ≠ id) ∧
    (∀ x ∈ (DeleteTickerHandler env c db).store.tickers, x.ID ≠ id) ∧
    (DeleteTickerHandler env c db).store.One id = none ∧
    (DeleteTickerHandler env c db).store.tickers = db.tickers.filter (fun x => !(x.ID == id)) ∧
    (DeleteTickerHandler env c db).store.messages = db.messages.filter (fun m => !(m.Ticker == id)) ∧
    (DeleteTickerHandler env c db).store.users = db.users ∧
    (DeleteTickerHandler env c db).store.seq = db.seq := by
  rw [deleteTicker_present env c db id t hadmin hid hex]
  have hs : ((db.DeleteMessages env id).1.DeleteTicker env id).1
      = { db with tickers := db.tickers.filter (fun x => !(x.ID == id)),
                  messages := db.messages.filter (fun m => !(m.Ticker == id)) } := by
    simp [Store.DeleteMessages, Store.DeleteTicker, hmsg, htick]
  rw [hs]
  refine ⟨rfl, rfl, ?_, ?_, one_filter_ne _ _, ?_, ?_, rfl, rfl⟩
  · intro m hm
    simp only [List.mem_filter] at hm
    simpa using hm.2
  · intro x hx
    simp only [List.mem_filter] at hx
    simpa using hx.2
  · rfl
  · rfl

/-- Witness for C8: the superadmin deletes the example ticker, which has one
message. -/
theorem delete_cascade_witness :
    (DeleteTickerHandler exampleEnv { me := some exampleAdmin, tickerID := .ok 1 }
        exampleStore).calls
      = [Call.oneTicker 1, Call.deleteMessages 1, Call.deleteTicker 1] ∧
    (DeleteTickerHandler exampleEnv { me := some exampleAdmin, tickerID := .ok 1 }
        exampleStore).store.One 1 = none :=
  have h := delete_cascade exampleEnv { me := some exampleAdmin, tickerID := .ok 1 }
    exampleStore 1 exampleTicker rfl rfl (by decide) rfl rfl
  ⟨h.2.1, h.2.2.2.2.1⟩

/-- C9: for an existing ticker with any number of messages, ResetTicker by a
superadmin, with the store carrying out the deletion and the save, answers 200
with the reset ticker, which is the one stored under the ID afterwards; no
message with ticker-foreign-key `id` is left; the ticker has the ID, domain,
title and description it had, and is not active. -/
theorem reset_clears_messages (env : Env) (c : Context) (db : Store) (id : Int) (t : Ticker)
    (hadmin : IsAdmin c = true) (hid : c.tickerID = .ok id) (hex : db.One id = some t)
    (hid0 : id ≠ 0) (hmsg : env.deleteMessagesError = none) (hsave : env.saveError = none) :
    (ResetTickerHandler env c db).response
      = ⟨StatusOK, NewJSONSuccessResponse (NewTickerResponse t.Reset)⟩ ∧
    (ResetTickerHandler env c db).store.One id = some t.Reset ∧
    ((ResetTickerHandler env c db).store.messages.filter (fun m => m.Ticker == id)).length = 0 ∧
    t.Reset.ID = id ∧ t.Reset.Domain = t.Domain ∧ t.Reset.Title = t.Title ∧
    t.Reset.Description = t.Description ∧ t.Reset.Active = false := by
  have hID : t.ID = id := one_id db id t hex
  have hne : t.Reset.ID ≠ 0 := by
    show t.ID ≠ 0
    rw [hID]; exact hid0
  obtain ⟨db2, t1, hs, -, hone, -, heq, hmsgs, -⟩ :=
    save_ok env (db.DeleteMessages env id).1 t.Reset hsave
  have h1 := heq hne
  subst h1
  have hm : (db.DeleteMessages env id).1.messages
      = db.messages.filter (fun m => !(m.Ticker == id)) := by
    simp [Store.DeleteMessages, hmsg]
  unfold ResetTickerHandler
  simp only [hadmin, hid, hex, hs]
  refine ⟨by simp, ?_, ?_, hID, rfl, rfl, rfl, rfl⟩
  · have : t.Reset.ID = id := hID
    rw [← this]
    exact hone
  · simp [hmsgs, hm, List.filter_filter]

/-- Witness for C9: the scenario of `TestResetTickerHandler`: the superadmin
resets ticker 1, which has one message. -/
theorem reset_clears_messages_witness :
    ((ResetTickerHandler exampleEnv { me := some exampleAdmin, tickerID := .ok 1 }
        exampleStore).store.messages.filter (fun m => m.Ticker == 1)).length = 0 ∧
    (ResetTickerHandler exampleEnv { me := some exampleAdmin, tickerID := .ok 1 }
        exampleStore).response
      = ⟨StatusOK, NewJSONSuccessResponse (NewTickerResponse exampleTicker.Reset)⟩ :=
  have h := reset_clears_messages exampleEnv { me := some exampleAdmin, tickerID := .ok 1 }
    exampleStore 1 exampleTicker rfl rfl (by decide) (by decide) rfl rfl
  ⟨h.2.2.1, h.1⟩

/-! ## Order of the existence check and the permission check -/

/-- C10 as stated fails for GetTicker: the plain user of the tests' setup, with
no ticker in the set, asks for ticker 1 in an empty store and is answered 403
with code 1003, not 404, and the store is not consulted. -/
theorem getTicker_absent_forbidden_counterexample :
    ({} : Store).One 1 = none ∧
    GetTickerHandler exampleEnv { me := some exampleUser, tickerID := .ok 1 } {}
      = ⟨⟨403, Body.error 1003 "insufficient permissions"⟩, {}, []⟩ := by
  decide

/-- C10 (amended): for a ticker ID that is not in the store, GetTickerUsers
answers every resolved caller 404 with code 1001, the existence check coming
first; GetTicker checks the permission first: it answers 403 with code 1003,
without consulting the store, when the guard denies the caller, and 404 with
code 1001 when the caller is a superadmin or has the ID in the set. -/
theorem absent_ticker_read (env : Env) (c : Context) (db : Store) (me : User) (id : Int)
    (hme : c.me = some me) (hid : c.tickerID = .ok id) (hno : db.One id = none) :
    GetTickerUsersHandler env c db
      = ⟨⟨404, Body.error 1001 "not found"⟩, db, [Call.oneTicker id]⟩ ∧
    (denied me id = true → GetTickerHandler env c db
      = ⟨⟨403, Body.error 1003 "insufficient permissions"⟩, db, []⟩) ∧
    (denied me id = false → GetTickerHandler env c db
      = ⟨⟨404, Body.error 1001 "not found"⟩, db, [Call.oneTicker id]⟩) := by
  refine ⟨?_, ?_, ?_⟩
  · simp [GetTickerUsersHandler, Me, hme, hid, hno]; exact ⟨rfl, rfl⟩
  · intro hd
    simp [GetTickerHandler, Me, hme, hid, hd]; rfl
  · intro hd
    simp [GetTickerHandler, Me, hme, hid, hd, hno]; exact ⟨rfl, rfl⟩

/-- Witness for C10 (amended): the plain user asks for the users of ticker 2,
which the example store does not hold. -/
theorem absent_ticker_read_witness :
    GetTickerUsersHandler exampleEnv { me := some exampleUser, tickerID := .ok 2 } exampleStore
      = ⟨⟨404, Body.error 1001 "not found"⟩, exampleStore, [Call.oneTicker 2]⟩ :=
  (absent_ticker_read exampleEnv { me := some exampleUser, tickerID := .ok 2 } exampleStore
    exampleUser 2 rfl rfl (by decide)).1

/-! ## The error code of an absent ticker -/

/-- The answer of the eight handlers that resolve a ticker by ID, for a caller
that is resolved and let through (a superadmin for DeleteTicker and
ResetTicker) and a ticker ID that is not in the store: six answer 404 with the
not-found code 1001, PutTicker and PutTickerTwitter answer 404 with the generic
code 1000. -/
theorem absent_ticker_codes (env : Env) (c : Context) (db : Store) (me : User) (id : Int)
    (hme : c.me = some me) (hid : c.tickerID = .ok id) (hallow : denied me id = false)
    (hno : db.One id = none) :
    (GetTickerHandler env c db).response = ⟨404, Body.error 1001 "not found"⟩ ∧
    (GetTickerUsersHandler env c db).response = ⟨404, Body.error 1001 "not found"⟩ ∧
    (PutTickerUsersHandler env c db).response = ⟨404, Body.error 1001 "not found"⟩ ∧
    (DeleteTickerUserHandler env c db).response = ⟨404, Body.error 1001 "not found"⟩ ∧
    (me.IsSuperAdmin = true →
      (DeleteTickerHandler env c db).response = ⟨404, Body.error 1001 "not found"⟩ ∧
      (ResetTickerHandler env c db).response = ⟨404, Body.error 1001 "not found"⟩) ∧
    (PutTickerHandler env c db).response = ⟨404, Body.error 1000 "not found"⟩ ∧
    (PutTickerTwitterHandler env c db).response = ⟨404, Body.error 1000 "not found"⟩ := by
  refine ⟨?_, ?_, ?_, ?_, ?_, ?_, ?_⟩
  · simp [GetTickerHandler, Me, hme, hid, hallow, hno]; exact ⟨rfl, rfl⟩
  · simp [GetTickerUsersHandler, Me, hme, hid, hno]; exact ⟨rfl, rfl⟩
  · simp [PutTickerUsersHandler, Me, hme, hid, hno]; exact ⟨rfl, rfl⟩
  · simp [DeleteTickerUserHandler, Me, hme, hid, hno]; exact ⟨rfl, rfl⟩
  · intro hs
    have hadmin := isAdmin_true c me hme hs
    constructor
    · simp [DeleteTickerHandler, hadmin, hid, hno]; exact ⟨rfl, rfl⟩
    · simp [ResetTickerHandler, hadmin, hid, hno]; exact ⟨rfl, rfl⟩
  · simp [PutTickerHandler, Me, hme, hid, hallow, hno]; exact ⟨rfl, rfl⟩
  · simp [PutTickerTwitterHandler, Me, hme, hid, hallow, hno]; exact ⟨rfl, rfl⟩

/-- C11 fails on the code: the superadmin asks PutTicker and PutTickerTwitter
for ticker 100, which the example store does not hold, and both answer 404 with
the generic code 1000, not 1001, while GetTicker answers the same request with
1001; a PutTicker on the existing ticker 1 whose save the store refuses is
answered with the same status 404 and the same code 1000. -/
theorem absent_ticker_generic_code :
    exampleStore.One 100 = none ∧
    (PutTickerHandler exampleEnv
        { me := some exampleAdmin, tickerID := .ok 100, tickerBody := .ok exampleBody }
        exampleStore).response = ⟨404, Body.error 1000 "not found"⟩ ∧
    (PutTickerTwitterHandler exampleEnv
        { me := some exampleAdmin, tickerID := .ok 100, twitterBody := .ok { Active := true } }
        exampleStore).response = ⟨404, Body.error 1000 "not found"⟩ ∧
    (GetTickerHandler exampleEnv { me := some exampleAdmin, tickerID := .ok 100 }
        exampleStore).response = ⟨404, Body.error 1001 "not found"⟩ ∧
    (PutTickerHandler { exampleEnv with saveError := some "database not open" }
        { me := some exampleAdmin, tickerID := .ok 1, tickerBody := .ok exampleBody }
        exampleStore).response = ⟨404, Body.error 1000 "database not open"⟩ := by
  decide

/-! ## Store failures during the cascade -/

/-- C12 fails on the code: with a store that refuses the deletion of the
messages, DeleteTicker by the superadmin on the existing ticker 1 answers 200
and leaves the message of ticker 1 behind without its ticker; with a store that
refuses the deletion of the ticker it answers 200 and ticker 1 is still
stored; ResetTicker with a store that refuses the deletion of the messages
answers 200 and the message is still stored. -/
theorem cascade_failure_reported_as_success :
    (DeleteTickerHandler { exampleEnv with deleteMessagesError := some "database not open" }
        { me := some exampleAdmin, tickerID := .ok 1 } exampleStore)
      = ⟨⟨200, Body.success Payload.null⟩,
          { exampleStore with tickers := [] },
          [Call.oneTicker 1, Call.deleteMessages 1, Call.deleteTicker 1]⟩ ∧
    (DeleteTickerHandler { exampleEnv with deleteTickerError := some "database not open" }
        { me := some exampleAdmin, tickerID := .ok 1 } exampleStore)
      = ⟨⟨200, Body.success Payload.null⟩,
          { exampleStore with messages := [] },
          [Call.oneTicker 1, Call.deleteMessages 1, Call.deleteTicker 1]⟩ ∧
    (ResetTickerHandler { exampleEnv with deleteMessagesError := some "database not open" }
        { me := some exampleAdmin, tickerID := .ok 1 } exampleStore).response
      = ⟨200, Body.success (Payload.ticker exampleTicker.Reset)⟩ ∧
    (ResetTickerHandler { exampleEnv with deleteMessagesError := some "database not open" }
        { me := some exampleAdmin, tickerID := .ok 1 } exampleStore).store.messages
      = exampleStore.messages := by
  decide

/-! ## The descriptor lookup -/

theorem disconnect_of_connected (ticker : Ticker) (body : TwitterBody)
    (h : (applyTwitterBody ticker body).Twitter.Connected = true) : body.Disconnect = false := by
  cases hd : body.Disconnect
  · rfl
  · rw [applyTwitterBody_disconnect ticker body hd] at h
    exact absurd h (by decide)

theorem applyTwitterBody_user (ticker : Ticker) (body : TwitterBody)
    (h : body.Disconnect = false) :
    (applyTwitterBody ticker body).Twitter.User = ticker.Twitter.User := by
  by_cases ht : body.Token = "" <;> by_cases hs : body.Secret = "" <;>
    simp [applyTwitterBody, h, ht, hs]

/-- C13: for an existing ticker and a bridge request after which the
connection counts as connected, PutTickerTwitter (caller resolved and let
through, store saving) consults the bridge once, between the lookup and the
save, and answers 200 with a ticker that is in the store afterwards; if the
bridge lookup succeeds the descriptor is the fetched one, if it fails the
descriptor is the one cached before; in both cases token, secret and active
flag are the ones just applied. -/
theorem connected_consults_bridge (env : Env) (c : Context) (db : Store) (me : User)
    (tickerID : Int) (ticker : Ticker) (body : TwitterBody)
    (hme : c.me = some me) (hid : c.tickerID = .ok tickerID)
    (hallow : denied me tickerID = false) (hex : db.One tickerID = some ticker)
    (hbody : c.twitterBody = .ok body)
    (hconn : (applyTwitterBody ticker body).Twitter.Connected = true)
    (hsave : env.saveError = none) :
    ∃ saved : Ticker,
      (PutTickerTwitterHandler env c db).response
        = ⟨StatusOK, NewJSONSuccessResponse (NewTickerResponse saved)⟩ ∧
      saved ∈ (PutTickerTwitterHandler env c db).store.tickers ∧
      (PutTickerTwitterHandler env c db).store.One saved.ID = some saved ∧
      (PutTickerTwitterHandler env c db).calls
        = [Call.oneTicker tickerID, Call.bridgeUser (applyTwitterBody ticker body),
            Call.saveTicker (fetchTwitterUser env (applyTwitterBody ticker body)).1] ∧
      saved.Twitter.Token = (applyTwitterBody ticker body).Twitter.Token ∧
      saved.Twitter.Secret = (applyTwitterBody ticker body).Twitter.Secret ∧
      saved.Twitter.Active = (applyTwitterBody ticker body).Twitter.Active ∧
      saved.Twitter.Active = body.Active ∧
      (∀ u, env.bridgeUser (applyTwitterBody ticker body) = .ok u → saved.Twitter.User = u) ∧
      (∀ e, env.bridgeUser (applyTwitterBody ticker body) = .error e →
        saved.Twitter.User = ticker.Twitter.User) := by
  have hdis := disconnect_of_connected ticker body hconn
  have hA := (applyTwitterBody_connect ticker body hdis).2.2
  have hU := applyTwitterBody_user ticker body hdis
  obtain ⟨db1, t1, hs, hmem, hone, heq, -, -, -⟩ :=
    save_ok env db (fetchTwitterUser env (applyTwitterBody ticker body)).1 hsave
  have hcalls : (fetchTwitterUser env (applyTwitterBody ticker body)).2
      = [Call.bridgeUser (applyTwitterBody ticker body)] := by
    unfold fetchTwitterUser
    rw [hconn]
    simp only [if_true]
    split <;> rfl
  refine ⟨t1, ?_⟩
  rcases hf : fetchTwitterUser env (applyTwitterBody ticker body) with ⟨t2, bridgeCalls⟩
  rw [hf] at hs hcalls heq
  simp only at hs hcalls heq
  subst hcalls
  have ht2 : t2 = (fetchTwitterUser env (applyTwitterBody ticker body)).1 := by rw [hf]
  unfold PutTickerTwitterHandler
  simp only [Me, hme, hid, hallow, hex, bindTwitterBody, hbody, hf, hs]
  refine ⟨by simp, hmem, hone, by simp, ?_, ?_, ?_, ?_, ?_, ?_⟩
  · obtain ⟨u, hu⟩ := fetchTwitterUser_keeps env (applyTwitterBody ticker body)
    rw [heq, ht2, hu]
  · obtain ⟨u, hu⟩ := fetchTwitterUser_keeps env (applyTwitterBody ticker body)
    rw [heq, ht2, hu]
  · obtain ⟨u, hu⟩ := fetchTwitterUser_keeps env (applyTwitterBody ticker body)
    rw [heq, ht2, hu]
  · obtain ⟨u, hu⟩ := fetchTwitterUser_keeps env (applyTwitterBody ticker body)
    rw [heq, ht2, hu]
    exact hA
  · intro u hu
    rw [heq, ht2]
    simp [fetchTwitterUser, hconn, hu]
  · intro e he
    rw [heq, ht2]
    simp [fetchTwitterUser, hconn, he, hU]

/-- Witness for C13: the superadmin activates the connected example ticker
while the bridge cannot be reached; the call succeeds and the descriptor is the
one cached before. -/
theorem connected_consults_bridge_witness :
    ∃ saved : Ticker,
      (PutTickerTwitterHandler exampleEnv
          { me := some exampleAdmin, tickerID := .ok 1, twitterBody := .ok { Active := true } }
          exampleStore).response
        = ⟨StatusOK, NewJSONSuccessResponse (NewTickerResponse saved)⟩ ∧
      saved.Twitter.User = exampleTicker.Twitter.User := by
  obtain ⟨saved, h1, -, -, -, -, -, -, -, -, h10⟩ :=
    connected_consults_bridge exampleEnv
      { me := some exampleAdmin, tickerID := .ok 1, twitterBody := .ok { Active := true } }
      exampleStore exampleAdmin 1 exampleTicker { Active := true }
      rfl rfl (by decide) (by decide) rfl (by decide) rfl
  exact ⟨saved, h1, h10 "bridge unavailable" rfl⟩

/-! ## Listing tickers -/

theorem filter_contains_eq (ts : List Ticker) (allowed : List Int) :
    ts.filter (fun t => contains allowed t.ID) = ts.filter (fun t => decide (t.ID ∈ allowed)) := by
  apply List.filter_congr
  intro t _
  cases h : contains allowed t.ID
  · have : ¬ t.ID ∈ allowed := fun hm => by
      rw [(contains_iff_mem allowed t.ID).mpr hm] at h
      exact absurd h (by decide)
    simp [this]
  · simp [(contains_iff_mem allowed t.ID).mp h]

/-- C14: for every store and resolved caller, GetTickers answers a superadmin
200 with all stored tickers in reverse store order, and a non-superadmin 200
with exactly the stored tickers whose ID is in the caller's `Tickers`, in
reverse store order; when no stored ticker has its ID in the set, the store's
not-found result becomes a 200 with the empty list; the store is unchanged. -/
theorem getTickers_lists (env : Env) (c : Context) (db : Store) (me : User)
    (hme : c.me = some me) :
    (me.IsSuperAdmin = true →
      GetTickersHandler env c db
        = ⟨⟨200, Body.success (Payload.tickers db.tickers.reverse)⟩, db, [Call.allTickers]⟩) ∧
    (me.IsSuperAdmin = false →
      GetTickersHandler env c db
        = ⟨⟨200, Body.success
              (Payload.tickers (db.tickers.filter (fun t => decide (t.ID ∈ me.Tickers))).reverse)⟩,
            db, [Call.findTickers me.Tickers]⟩) ∧
    (me.IsSuperAdmin = false → (∀ t ∈ db.tickers, t.ID ∉ me.Tickers) →
      db.FindInReverse me.Tickers = none ∧
      (GetTickersHandler env c db).response = ⟨200, Body.success (Payload.tickers [])⟩) := by
  have hns : me.IsSuperAdmin = false →
      GetTickersHandler env c db
        = ⟨⟨200, Body.success
              (Payload.tickers (db.tickers.filter (fun t => decide (t.ID ∈ me.Tickers))).reverse)⟩,
            db, [Call.findTickers me.Tickers]⟩ := by
    intro hs
    unfold GetTickersHandler
    simp only [Me, hme, hs, Store.FindInReverse, filter_contains_eq]
    cases hl : (db.tickers.filter (fun t => decide (t.ID ∈ me.Tickers))).reverse <;>
      simp [StatusOK, NewJSONSuccessResponse, NewTickersResponse]
  have hempty : (∀ t ∈ db.tickers, t.ID ∉ me.Tickers) →
      db.tickers.filter (fun t => decide (t.ID ∈ me.Tickers)) = [] := by
    intro hnone
    rw [List.filter_eq_nil_iff]
    intro t ht
    simpa using hnone t ht
  refine ⟨?_, hns, ?_⟩
  · intro hs
    simp [GetTickersHandler, Me, hme, hs, Store.AllReverse, StatusOK, NewJSONSuccessResponse,
      NewTickersResponse]
  · intro hs hnone
    constructor
    · simp [Store.FindInReverse, filter_contains_eq, hempty hnone]
    · rw [hns hs, hempty hnone]
      rfl

/-- Witness for C14: the superadmin sees the example ticker, a user with
`Tickers = [1]` sees it too, and the plain user with no ticker gets the empty
list. -/
theorem getTickers_lists_witness :
    GetTickersHandler exampleEnv { me := some exampleAdmin } exampleStore
      = ⟨⟨200, Body.success (Payload.tickers [exampleTicker])⟩, exampleStore,
          [Call.allTickers]⟩ ∧
    (GetTickersHandler exampleEnv { me := some exampleUser } exampleStore).response
      = ⟨200, Body.success (Payload.tickers [])⟩ :=
  ⟨(getTickers_lists exampleEnv { me := some exampleAdmin } exampleStore exampleAdmin rfl).1 rfl,
    ((getTickers_lists exampleEnv { me := some exampleUser } exampleStore exampleUser rfl).2.2
      rfl (by decide)).2⟩

/-! ## Failure of `updateTicker` changes nothing -/

theorem updateTicker_error_keeps (env : Env) (t : Ticker) (c : Context)
    (h : (updateTicker env t c).2 ≠ none) : (updateTicker env t c).1 = t := by
  cases hb : bindTickerBody env c with
  | error err => simp [updateTicker, hb]
  | ok b =>
    rw [updateTicker_eq env t c b hb] at h ⊢
    cases hf : specFirstFailure env b with
    | none => rw [hf] at h; exact absurd rfl h
    | some p => rfl

/-- C15: if `updateTicker` returns an error, the ticker behind the pointer is
the one handed in, no field modified; a PutTicker whose `updateTicker` fails
(caller resolved and let through, ticker found) answers 400 with that error,
makes no call to the store after the lookup and leaves the store as it was; a
PostTicker by an admin whose `updateTicker` fails answers 400 with that error,
makes no call to the store and leaves it as it was. -/
theorem updateTicker_atomic (env : Env) (t : Ticker) (c : Context) :
    ((updateTicker env t c).2 ≠ none → (updateTicker env t c).1 = t) ∧
    (∀ (db : Store) (me : User) (id : Int) (e : String), c.me = some me →
      c.tickerID = .ok id → denied me id = false → db.One id = some t →
      (updateTicker env t c).2 = some e →
      PutTickerHandler env c db = ⟨⟨400, Body.error 1000 e⟩, db, [Call.oneTicker id]⟩ ∧
      db.One id = some t) ∧
    (∀ (db : Store) (e : String), IsAdmin c = true →
      (updateTicker env NewTicker c).2 = some e →
      PostTickerHandler env c db = ⟨⟨400, Body.error 1000 e⟩, db, []⟩) := by
  refine ⟨updateTicker_error_keeps env t c, ?_, ?_⟩
  · intro db me id e hme hid hallow hex herr
    refine ⟨?_, hex⟩
    unfold PutTickerHandler
    simp only [Me, hme, hid, hallow, hex]
    rcases hu : updateTicker env t c with ⟨t1, err⟩
    rw [hu] at herr
    simp only at herr
    subst herr
    rfl
  · intro db e hadmin herr
    unfold PostTickerHandler
    simp only [hadmin]
    rcases hu : updateTicker env NewTicker c with ⟨t1, err⟩
    rw [hu] at herr
    simp only at herr
    subst herr
    rfl

/-- Witness for C15: the superadmin updates the example ticker with a body
whose domain is too short; the ticker is not touched and nothing is saved. -/
theorem updateTicker_atomic_witness :
    (updateTicker exampleEnv exampleTicker
        { tickerBody := .ok { exampleBody with Domain := "ab" } }).1 = exampleTicker ∧
    PutTickerHandler exampleEnv
        { me := some exampleAdmin, tickerID := .ok 1,
          tickerBody := .ok { exampleBody with Domain := "ab" } } exampleStore
      = ⟨⟨400, Body.error 1000 "Domain: is too short"⟩, exampleStore, [Call.oneTicker 1]⟩ :=
  ⟨(updateTicker_atomic exampleEnv exampleTicker
      { tickerBody := .ok { exampleBody with Domain := "ab" } }).1 (by decide),
    ((updateTicker_atomic exampleEnv exampleTicker
      { me := some exampleAdmin, tickerID := .ok 1,
        tickerBody := .ok { exampleBody with Domain := "ab" } }).2.1
      exampleStore exampleAdmin 1 "Domain: is too short" rfl rfl (by decide) (by decide)
      (by decide)).1⟩

end TickerApi
